import Mathlib

/-!
Verification of the crawl-and-ingest core of `src/cne_scraper.py`
(class `CNE_Scraper_Async`).

The Python code is shallowly embedded: dynamically-typed Python values
are modelled by the inductive type `Val`; operations that can raise a
Python exception return `Except Unit _`; network and filesystem effects
are abstracted into explicit oracles (functions supplied as arguments)
and the requests issued are returned as explicit traces, so that
"performs no network call" is expressible as an empty trace.
-/

namespace CNE

/-- Model of a dynamically-typed Python/JSON value as handled by the
scraper: integers, strings, `None`, lists and string-keyed dicts
(association lists, first binding wins, mirroring unique dict keys).
Floats and booleans do not occur in the claims and are not modelled. -/
inductive Val where
  | vInt  : Int → Val
  | vStr  : String → Val
  | vNone : Val
  | vList : List Val → Val
  | vDict : List (String × Val) → Val

/-- Python truthiness: `None`, `0`, `""`, `[]` and `\x7b\x7d` are falsy. -/
def truthy : Val → Bool
  | .vNone => false
  | .vInt n => !(n == 0)
  | .vStr s => !(s == "")
  | .vList xs => !xs.isEmpty
  | .vDict kvs => !kvs.isEmpty

/-- Python `a or b`: yields `a` when `a` is truthy, otherwise `b`. -/
def pyOr (a b : Val) : Val := if truthy a then a else b

/-- First binding for a key in an association-list dict (Python dict lookup). -/
def buscar : List (String × Val) → String → Option Val
  | [], _ => none
  | (k, v) :: resto, clave => if k = clave then some v else buscar resto clave

/-- Python `d.get(key, default)` on a dict represented as an association list. -/
def buscarD (kvs : List (String × Val)) (clave : String) (defecto : Val) : Val :=
  match buscar kvs clave with
  | some v => v
  | none => defecto

/-- Python `v.get(key, default)`: succeeds on dicts, raises `AttributeError`
(modelled as `Except.error`) on any other value. -/
def pyGetE (v : Val) (clave : String) (defecto : Val) : Except Unit Val :=
  match v with
  | .vDict kvs => .ok (buscarD kvs clave defecto)
  | _ => .error ()

/-- Python `v[key]` with a string key: dict lookup (KeyError when the key is
missing), `TypeError` on any non-dict value. -/
def pySubscript (v : Val) (clave : String) : Except Unit Val :=
  match v with
  | .vDict kvs =>
    match buscar kvs clave with
    | some x => .ok x
    | none => .error ()
  | _ => .error ()

/-- Does the character list `hay` start with `ned`? (helper for Python
substring membership on strings). -/
def empiezaCon : List Char → List Char → Bool
  | _, [] => true
  | [], _ :: _ => false
  | h :: hs, n :: ns => h == n && empiezaCon hs ns

/-- Does `hay` contain `ned` as a contiguous run? -/
def contieneSub : List Char → List Char → Bool
  | [], ned => empiezaCon [] ned
  | h :: t, ned => empiezaCon (h :: t) ned || contieneSub t ned

/-- Python `key in v` for a string `key`: key test on dicts, element
equality on lists, substring test on strings, `TypeError` otherwise. -/
def pyContains (v : Val) (clave : String) : Except Unit Bool :=
  match v with
  | .vDict kvs => .ok (buscar kvs clave).isSome
  | .vList xs => .ok (xs.any (fun x => match x with | .vStr s => s == clave | _ => false))
  | .vStr s => .ok (contieneSub s.toList clave.toList)
  | _ => .error ()

/-- Python iteration `for x in v`: list elements, dict keys, characters of a
string; `TypeError` on ints and `None`. -/
def pyIter (v : Val) : Except Unit (List Val) :=
  match v with
  | .vList xs => .ok xs
  | .vDict kvs => .ok (kvs.map (fun kv => Val.vStr kv.1))
  | .vStr s => .ok (s.toList.map (fun c => Val.vStr (String.mk [c])))
  | _ => .error ()

/-- Python `v == 1` as used for the `publicadas` flag. -/
def pyEq1 : Val → Bool
  | .vInt n => n == 1
  | _ => false

/-- Fetch results are `Option Val` (`none` is Python `None`); convert back
into a `Val` for code that inspects the response. -/
def optToVal : Option Val → Val
  | some v => v
  | none => .vNone

mutual

/-- Python `repr` of a value (used by `str` on containers). -/
def pyRepr : Val → String
  | .vInt n => toString n
  | .vStr s => "'" ++ s ++ "'"
  | .vNone => "None"
  | .vList xs => "[" ++ pyReprLista xs ++ "]"
  | .vDict kvs => "\x7b" ++ pyReprDict kvs ++ "\x7d"

/-- Comma-separated reprs of the elements of a list. -/
def pyReprLista : List Val → String
  | [] => ""
  | [x] => pyRepr x
  | x :: xs => pyRepr x ++ ", " ++ pyReprLista xs

/-- Comma-separated `'key': value` reprs of the bindings of a dict. -/
def pyReprDict : List (String × Val) → String
  | [] => ""
  | [(k, v)] => "'" ++ k ++ "': " ++ pyRepr v
  | (k, v) :: kvs => "'" ++ k ++ "': " ++ pyRepr v ++ ", " ++ pyReprDict kvs

end

/-- Python `str(v)` (f-string conversion): identity on strings, `repr`
otherwise. -/
def pyStr (v : Val) : String :=
  match v with
  | .vStr s => s
  | v => pyRepr v

/-- Decimal digits of a character list to a natural number; `none` when
empty or when any character is not a digit. -/
def digitosANat : List Char → Option Nat
  | [] => none
  | cs => cs.foldlM (fun acc c => if c.isDigit then some (acc * 10 + (c.toNat - 48)) else none) 0

/-- Python `int(s)` on a string: optional sign then decimal digits;
`none` models the `ValueError` raised on anything else. -/
def pyParseInt (s : String) : Option Int :=
  match s.toList with
  | '-' :: resto => (digitosANat resto).map (fun n => -(n : Int))
  | '+' :: resto => (digitosANat resto).map (fun n => (n : Int))
  | cs => (digitosANat cs).map (fun n => (n : Int))

/-- Python `int(v)` on a value: ints pass through, strings are parsed,
anything else raises `TypeError`. -/
def pyIntE : Val → Except Unit Int
  | .vInt n => .ok n
  | .vStr s =>
    match pyParseInt s with
    | some n => .ok n
    | none => .error ()
  | _ => .error ()

/-- One step of the accumulation `total += item.get("votos", 0)` from
`extraer_votos` (cne_scraper.py:253,258): a missing `votos` field
contributes 0, a non-dict item or a non-integer field raises. -/
def sumarVotosItem (total : Int) (item : Val) : Except Unit Int :=
  match item with
  | .vDict kvs =>
    match buscar kvs "votos" with
    | some (.vInt n) => .ok (total + n)
    | some _ => .error ()
    | none => .ok (total + 0)
  | _ => .error ()

/-- Embedding of the nested helper `extraer_votos` (cne_scraper.py:243-261):
`None` yields 0, a bare number yields itself, a list sums each item's
`votos` field, a dict with a `resultados` key sums over that collection,
a dict with a direct `votos` key yields it, any other shape yields 0. -/
def extraer_votos (resp : Val) : Except Unit Int :=
  match resp with
  | .vNone => .ok 0
  | .vInt n => .ok n
  | .vList items => items.foldlM sumarVotosItem 0
  | .vDict kvs =>
    match buscar kvs "resultados" with
    | some rs => do
      let items ← pyIter rs
      items.foldlM sumarVotosItem 0
    | none =>
      match buscar kvs "votos" with
      | some (.vInt n) => .ok (0 + n)
      | some _ => .error ()
      | none => .ok 0
  | .vStr _ => .ok 0

/-- HTTP method of a data fetch (`fetch` dispatches on the string
`"GET"`/`"POST"`). -/
inductive Metodo where
  | get
  | post

/-- Outcome of one attempt of `session.get`/`session.post`: an HTTP status
with the parsed body (meaningful for 200), or a transport/timeout
exception. -/
inductive Intento where
  | estado (codigo : Nat) (cuerpo : Val)
  | excepcion

/-- Observable behaviour of one `fetch` run: the returned payload (`none`
is Python `None`), how many attempts were made, and the backoff sleeps
(in seconds) performed in the exception branch. -/
structure FetchSalida where
  resultado : Option Val
  intentos : Nat
  esperas : List Nat

/-- Embedding of the retry loop of `fetch` (cne_scraper.py:111-142).
`o i` is the outcome of the attempt with 0-based index `i`; `r` is the
number of attempts left. HTTP 200 returns the payload at once; for GET,
404 and 204 return `None` at once; for POST only 204 returns `None` at
once (a POST 404 is logged like any other status and falls through to the
next attempt); a transport exception sleeps `1 * (i + 1)` seconds and
falls through. When the loop exhausts its attempts the function returns
`None` (cne_scraper.py:142). -/
def fetch_bucle (m : Metodo) (o : Nat → Intento) : Nat → Nat → FetchSalida
  | _, 0 => ⟨none, 0, []⟩
  | i, r + 1 =>
    match o i with
    | .estado c cuerpo =>
      match m with
      | .get =>
        if c = 200 then ⟨some cuerpo, 1, []⟩
        else if c = 404 ∨ c = 204 then ⟨none, 1, []⟩
        else
          let s := fetch_bucle m o (i + 1) r
          ⟨s.resultado, s.intentos + 1, s.esperas⟩
      | .post =>
        if c = 200 then ⟨some cuerpo, 1, []⟩
        else if c = 204 then ⟨none, 1, []⟩
        else
          let s := fetch_bucle m o (i + 1) r
          ⟨s.resultado, s.intentos + 1, s.esperas⟩
    | .excepcion =>
      let s := fetch_bucle m o (i + 1) r
      ⟨s.resultado, s.intentos + 1, (1 * (i + 1)) :: s.esperas⟩

/-- The method `fetch(session, method, url, json_payload, retries)`
(cne_scraper.py:111): run the retry loop from attempt 0. -/
def fetch (m : Metodo) (o : Nat → Intento) (reintentos : Nat) : FetchSalida :=
  fetch_bucle m o 0 reintentos

/-- Default retry bound of `fetch` (`retries=3`, cne_scraper.py:111). -/
def FETCH_REINTENTOS : Nat := 3

/-- Does this attempt outcome make `fetch` fall through to the next
attempt (log-and-retry statuses and transport exceptions)? -/
def reintenta (m : Metodo) : Intento → Bool
  | .excepcion => true
  | .estado c _ =>
    match m with
    | .get => !(c == 200 || c == 404 || c == 204)
    | .post => !(c == 200 || c == 204)

/-- Observable behaviour of `fetch_navigation_robust`: the value handed to
the caller, the number of navigation attempts, the backoff sleeps, and
whether the critical branch-failure message was logged. -/
structure NavSalida where
  dato : Val
  intentos : Nat
  esperas : List Nat
  fallo_critico : Bool

/-- Embedding of the loop of `fetch_navigation_robust`
(cne_scraper.py:144-160). `o a` is the attempt stream handed to the inner
`fetch(session, "GET", url, retries=1)` for the navigation attempt with
0-based index `a`. Non-`None` data is returned at once; otherwise the
loop sleeps `2 * (a + 1)` seconds and retries; after the bound it logs a
critical branch failure and returns the empty list. The `except` branch
of the source is unreachable here because `fetch` catches all its own
exceptions and the model makes that totality explicit. -/
def fetch_navigation_bucle (o : Nat → Nat → Intento) : Nat → Nat → NavSalida
  | _, 0 => ⟨.vList [], 0, [], true⟩
  | a, r + 1 =>
    match (fetch .get (o a) 1).resultado with
    | some d => ⟨d, 1, [], false⟩
    | none =>
      let s := fetch_navigation_bucle o (a + 1) r
      ⟨s.dato, s.intentos + 1, (2 * (a + 1)) :: s.esperas, s.fallo_critico⟩

/-- The method `fetch_navigation_robust` with its `max_retries = 5`
(cne_scraper.py:146). -/
def fetch_navigation_robust (o : Nat → Nat → Intento) : NavSalida :=
  fetch_navigation_bucle o 0 5

/-- Observable behaviour of one `descargar_asset` call: the returned value
(`none` is Python `None`), the network requests issued (urls), and
whether a file was written. -/
structure DescargaSalida where
  resultado : Option String
  solicitudes : List String
  escribio : Bool

/-- Embedding of `descargar_asset` (cne_scraper.py:162-180).
`fsTam p` is the size of the file at path `p` before the call (`none`
when absent); `http u` is the HTTP status obtained for `u` (`none` for a
transport exception). A falsy url returns `None` with no request; an
existing non-empty file returns the filename with no request; otherwise
one GET is issued: 200 writes the file and returns the filename, any
other status or an exception returns `None` (the `try` swallows every
exception, so nothing is raised past this boundary). A truthy non-string
url makes `session.get` raise before a request is made, which the same
`try` turns into `None`. -/
def descargar_asset (fsTam : String → Option Nat) (http : String → Option Nat)
    (url : Val) (carpeta nombre : String) : DescargaSalida :=
  if truthy url = false then ⟨none, [], false⟩
  else
    let ruta := carpeta ++ "/" ++ nombre
    if 0 < (fsTam ruta).getD 0 then ⟨some nombre, [], false⟩
    else
      match url with
      | .vStr u =>
        match http u with
        | some codigo =>
          if codigo = 200 then ⟨some nombre, [u], true⟩ else ⟨none, [u], false⟩
        | none => ⟨none, [u], false⟩
      | _ => ⟨none, [], false⟩

/-- API endpoint constants (cne_scraper.py:50-52). -/
def BASE_API : String := "https://resultadosgenerales2025-api.cne.hn/esc/v1"

/-- Presidential level code `self.NIVEL` (cne_scraper.py:51). -/
def NIVEL : String := "01"

/-- Special-votes endpoint `self.URL_VOTOS` (cne_scraper.py:52). -/
def URL_VOTOS : String := BASE_API ++ "/presentacion-resultados/votos"

/-- Directory for scanned tally sheets, relative to the project root
(cne_scraper.py:56). -/
def PDF_DIR : String := "assets/scans/pdf"

/-- Directory for party/candidate logos, relative to the project root
(cne_scraper.py:59). -/
def IMG_FOLDER : String := "assets/party_logos"

/-- Geographic identifiers attached to a work item (`ids_geo`,
cne_scraper.py:497-502). The department id comes from a static list; the
others are server-provided values. -/
structure GeoIds where
  depto : Val
  muni : Val
  zona : Val
  centro : Val

/-- Geographic display names attached to a work item (`noms_geo`,
cne_scraper.py:503-508). -/
structure GeoNoms where
  depto : Val
  muni : Val
  zona : Val
  centro : Val

/-- A POST data request issued by `procesar_mesa_task`: the url plus the
JSON payload fields (`payload_base` and its two specialisations,
cne_scraper.py:194-210). -/
structure Solicitud where
  url : String
  codigos : List String
  tipco : String
  mesa : Int
  depto : Val
  mcpio : Val
  zona : Val
  pesto : Val
  comuna : String

/-- One candidate entry of `lista_candidatos` (cne_scraper.py:290-304);
the two filenames are the `imgs_locales` sub-dict. -/
structure Candidato where
  id_partido_string : Val
  id_partido_int : Val
  id_candidato : Val
  nombre_candidato : Val
  nombre_partido : Val
  votos : Val
  color_hex : Val
  img_partido : String
  img_candidato : String

/-- A candidate together with the logo urls used for the scheduled
downloads (cne_scraper.py:276-288). -/
structure CandProc where
  cand : Candidato
  link_partido : Val
  link_candidato : Val

/-- The `timestamps` sub-dict of the final JSON (cne_scraper.py:325-328);
the local extraction time is an opaque input of the model. -/
structure Marcas where
  extraccion_local : String
  corte_servidor : Val

/-- The `geografia` sub-dict of the final JSON (cne_scraper.py:329-338). -/
structure Geografia where
  cod_depto : Val
  nom_depto : Val
  cod_muni : Val
  nom_muni : Val
  cod_zona : Val
  nom_zona : Val
  cod_centro : Val
  nom_centro : Val

/-- The `auditoria` sub-dict of the final JSON (cne_scraper.py:339-348). -/
structure Auditoria where
  estado_global : String
  es_correcta : Val
  tiene_inconsistencias : Val
  en_verificacion : Val
  pend_verif_visual : Val
  en_espera : Val

/-- The `estadisticas` sub-dict of the final JSON (cne_scraper.py:349-357):
the first three fields are fetched values, the last four are computed. -/
structure Estadisticas where
  censo_mesa : Val
  total_firmas : Val
  participacion_pct : Val
  votos_validos_calc : Int
  votos_blancos : Int
  votos_nulos : Int
  total_votos_calculados : Int

/-- The `documentos` sub-dict of the final JSON (cne_scraper.py:359-364). -/
structure Documentos where
  pdf_descargado : Bool
  pdf_nombre_local : Option String
  url_origen : Val
  url_tokenizada : Val

/-- The record `json_final` assembled for one polling station
(cne_scraper.py:323-365). -/
structure Registro where
  id_jrv : Int
  timestamps : Marcas
  geografia : Geografia
  auditoria : Auditoria
  estadisticas : Estadisticas
  detalle_resultados : List Candidato
  documentos : Documentos

/-- The row written by the `INSERT OR REPLACE` statement
(cne_scraper.py:370-386): key, denormalised names, audit status, the
computed valid-vote total, and the serialised record. -/
structure FilaBD where
  id_jrv : Int
  depto_nom : Val
  muni_nom : Val
  centro_nom : Val
  estado_acta : String
  votos_validos_calculados : Int
  json : Registro

/-- How one `procesar_mesa_task` call ended. -/
inductive Resultado where
  | sin_id
  | ya_existe
  | excepcion
  | persistido (reg : Registro)

/-- Observable behaviour of one `procesar_mesa_task` call: the data POST
requests issued, the asset GET urls issued, the database rows written,
and the outcome. -/
structure ProcSalida where
  solicitudes : List Solicitud
  solicitudes_assets : List String
  filas : List FilaBD
  resultado : Resultado

/-- Extraction of the station id, `mesa.get("numero") or mesa.get("jrv")`
(shared by the worker, cne_scraper.py:184, and the Navigator,
cne_scraper.py:490). Both `get` calls are on the same receiver, so
evaluating both sides of the short-circuit `or` is behaviourally equal. -/
def id_de_mesa (mesa : Val) : Except Unit Val := do
  let a ← pyGetE mesa "numero" .vNone
  let b ← pyGetE mesa "jrv" .vNone
  pure (pyOr a b)

/-- The sum `sum(c["votos"] for c in lista_candidatos)`
(cne_scraper.py:310): every stored `votos` value must be an integer,
otherwise the generator raises `TypeError`. -/
def sumar_votos_candidatos (cs : List Candidato) : Except Unit Int :=
  cs.foldlM
    (fun acc c =>
      match c.votos with
      | .vInt n => .ok (acc + n)
      | _ => .error ()) 0

/-- One iteration of the candidate loop (cne_scraper.py:270-304): reads
the fields with their source defaults, builds the two deterministic logo
filenames, and keeps the logo urls for the scheduled downloads. A
non-dict element raises (`.get` on it fails). -/
def procesar_candidato (cand : Val) : Except Unit CandProc :=
  match cand with
  | .vDict kvs =>
    let p_id := buscarD kvs "parpo_id" (.vStr "0")
    let c_cod := buscarD kvs "cddto_codigo" (.vStr "000")
    let f_partido := "Partido_" ++ pyStr p_id ++ ".png"
    let f_candidato := "Cand_" ++ pyStr p_id ++ "_" ++ pyStr c_cod ++ ".png"
    .ok
      { cand :=
          { id_partido_string := p_id
            id_partido_int := buscarD kvs "parpo_id_int" (.vInt 0)
            id_candidato := c_cod
            nombre_candidato := buscarD kvs "cddto_nombres" .vNone
            nombre_partido := buscarD kvs "parpo_nombre" .vNone
            votos := buscarD kvs "votos" (.vInt 0)
            color_hex := buscarD kvs "parpo_color" .vNone
            img_partido := f_partido
            img_candidato := f_candidato }
        link_partido := buscarD kvs "parpo_link_logo" .vNone
        link_candidato := buscarD kvs "cddto_link_logo" .vNone }
  | _ => .error ()

/-- The candidate block guarded by `if "candidatos" in data_res`
(cne_scraper.py:269): absent key yields an empty list; a present key is
subscripted, iterated and each element processed. -/
def procesar_candidatos (data_res : Val) : Except Unit (List CandProc) := do
  let tiene ← pyContains data_res "candidatos"
  if tiene then do
    let cs ← pySubscript data_res "candidatos"
    let items ← pyIter cs
    items.mapM procesar_candidato
  else
    pure []

/-- Left-pad a digit string with zeros to width `w`. -/
def rellenarCeros (s : String) (w : Nat) : String :=
  if w ≤ s.length then s else String.mk (List.replicate (w - s.length) '0') ++ s

/-- Python `f"...\x7bn:05d\x7d"`: zero-pad the decimal rendering of `n` to
width 5, the sign counting toward the width (cne_scraper.py:316). -/
def formato05d (n : Int) : String :=
  if n < 0 then "-" ++ rellenarCeros (toString (-n)) 4 else rellenarCeros (toString n) 5

/-- Python `url_pdf.split("?")[0]`: the prefix of the string before the
first `?` (the whole string when there is none). -/
def antesDeInterrogante (s : String) : String :=
  String.mk (s.toList.takeWhile (fun c => !(c == '?')))

/-- The `url_origen` expression `url_pdf.split("?")[0] if url_pdf else None`
(cne_scraper.py:362): `None` for a falsy url, the token-stripped url for
a string; a truthy non-string has no `.split` and raises. -/
def url_origen_de (url_pdf : Val) : Except Unit Val :=
  if truthy url_pdf then
    match url_pdf with
    | .vStr u => .ok (.vStr (antesDeInterrogante u))
    | _ => .error ()
  else .ok .vNone

/-- Assembly of `json_final` (cne_scraper.py:323-365) from the fetched and
computed pieces. Every field keeps its source default; the whole assembly
raises when any `.get` receiver is not a dict or when a truthy document
url is not a string. -/
def ensamblar_registro (ahora : String) (ids_geo : GeoIds) (noms_geo : GeoNoms) (n : Int)
    (data_val data_suf data_res : Val) (votos_blancos votos_nulos : Int)
    (lista_candidatos : List Candidato) (total_validos total_urna : Int)
    (pdf_local : Option String) (url_pdf : Val) : Except Unit Registro :=
  match pyGetE data_res "fecha_corte" .vNone,
        pyGetE data_val "publicadas" .vNone,
        pyGetE data_val "correctas" (.vInt 0),
        pyGetE data_val "inconsistencias" (.vInt 0),
        pyGetE data_val "verificacion" (.vInt 0),
        pyGetE data_val "pendientesVerificacionVisual" (.vInt 0),
        pyGetE data_val "espera" (.vInt 0),
        pyGetE data_suf "sufragantes" (.vInt 0),
        pyGetE data_suf "cantidadDeFirmas" (.vInt 0),
        pyGetE data_suf "participacion" (.vInt 0),
        url_origen_de url_pdf with
  | .ok corte, .ok publicadas, .ok correctas, .ok inconsistencias, .ok verificacion,
    .ok pend_visual, .ok espera, .ok sufragantes, .ok firmas, .ok participacion,
    .ok url_origen =>
    .ok
      { id_jrv := n
        timestamps := ⟨ahora, corte⟩
        geografia :=
          ⟨ids_geo.depto, noms_geo.depto, ids_geo.muni, noms_geo.muni,
            ids_geo.zona, noms_geo.zona, ids_geo.centro, noms_geo.centro⟩
        auditoria :=
          ⟨if pyEq1 publicadas then "Publicada" else "No Publicada",
            correctas, inconsistencias, verificacion, pend_visual, espera⟩
        estadisticas :=
          ⟨sufragantes, firmas, participacion, total_validos, votos_blancos,
            votos_nulos, total_urna⟩
        detalle_resultados := lista_candidatos
        documentos := ⟨pdf_local.isSome, pdf_local, url_origen, url_pdf⟩ }
  | _, _, _, _, _, _, _, _, _, _, _ => .error ()

/-- Embedding of `procesar_mesa_task` (cne_scraper.py:182-390).
`db` is the set of already-persisted station ids (`verify_db_existance`);
`oraculo` maps each data POST request to the payload `fetch` produced for
it (`none` is an exhausted/absent fetch); `fsTam` and `http` are the
filesystem and asset-download oracles of `descargar_asset`; `ahora` is
the wall-clock timestamp. The traces record exactly the upstream data
calls, asset requests and database writes the call performs; an
exception anywhere after the fetches makes the worker log the error and
write nothing. -/
def procesar_mesa_task (db : List Int) (oraculo : Solicitud → Option Val)
    (fsTam : String → Option Nat) (http : String → Option Nat) (ahora : String)
    (mesa : Val) (ids_geo : GeoIds) (noms_geo : GeoNoms) : ProcSalida :=
  match id_de_mesa mesa with
  | .error _ => ⟨[], [], [], .excepcion⟩
  | .ok id_jrv =>
    if truthy id_jrv then
      match pyParseInt (pyStr id_jrv) with
      | none => ⟨[], [], [], .excepcion⟩
      | some n =>
        if db.contains n then ⟨[], [], [], .ya_existe⟩
        else
          let sol := fun (url : String) (codigos : List String) =>
            (⟨url, codigos, NIVEL, n, ids_geo.depto, ids_geo.muni, ids_geo.zona,
              ids_geo.centro, "00"⟩ : Solicitud)
          let s_val := sol (BASE_API ++ "/presentacion-resultados/actas-validas") []
          let s_suf := sol (BASE_API ++ "/presentacion-resultados/sufragantes") []
          let s_res := sol (BASE_API ++ "/presentacion-resultados") []
          let s_bla := sol URL_VOTOS ["996"]
          let s_nul := sol URL_VOTOS ["997", "998"]
          let solicitudes := [s_val, s_suf, s_res, s_bla, s_nul]
          let data_val := pyOr (optToVal (oraculo s_val)) (.vDict [])
          let data_suf := pyOr (optToVal (oraculo s_suf)) (.vDict [])
          let data_res := pyOr (optToVal (oraculo s_res)) (.vDict [])
          match extraer_votos (optToVal (oraculo s_bla)) with
          | .error _ => ⟨solicitudes, [], [], .excepcion⟩
          | .ok votos_blancos =>
            match extraer_votos (optToVal (oraculo s_nul)) with
            | .error _ => ⟨solicitudes, [], [], .excepcion⟩
            | .ok votos_nulos =>
              match procesar_candidatos data_res with
              | .error _ => ⟨solicitudes, [], [], .excepcion⟩
              | .ok cands =>
                let descargas := cands.map (fun cp =>
                  (descargar_asset fsTam http cp.link_partido IMG_FOLDER cp.cand.img_partido,
                   descargar_asset fsTam http cp.link_candidato IMG_FOLDER cp.cand.img_candidato))
                let solicitudes_logos :=
                  descargas.foldr (fun d acc => d.1.solicitudes ++ d.2.solicitudes ++ acc) []
                let lista_candidatos := cands.map CandProc.cand
                match sumar_votos_candidatos lista_candidatos with
                | .error _ => ⟨solicitudes, solicitudes_logos, [], .excepcion⟩
                | .ok total_validos =>
                  let total_urna := total_validos + votos_blancos + votos_nulos
                  match pyGetE mesa "nombre_archivo" .vNone with
                  | .error _ => ⟨solicitudes, solicitudes_logos, [], .excepcion⟩
                  | .ok url_pdf =>
                    let pdf_nombre := "HND_2025_JRV_" ++ formato05d n ++ ".pdf"
                    let descarga_pdf :=
                      if truthy url_pdf then
                        descargar_asset fsTam http url_pdf PDF_DIR pdf_nombre
                      else ⟨none, [], false⟩
                    let solicitudes_assets := solicitudes_logos ++ descarga_pdf.solicitudes
                    let pdf_local : Option String :=
                      if truthy url_pdf &&
                          ((fsTam (PDF_DIR ++ "/" ++ pdf_nombre)).isSome || descarga_pdf.escribio)
                      then some pdf_nombre else none
                    match ensamblar_registro ahora ids_geo noms_geo n data_val data_suf
                        data_res votos_blancos votos_nulos lista_candidatos total_validos
                        total_urna pdf_local url_pdf with
                    | .error _ => ⟨solicitudes, solicitudes_assets, [], .excepcion⟩
                    | .ok reg =>
                      ⟨solicitudes, solicitudes_assets,
                        [⟨n, noms_geo.depto, noms_geo.muni, noms_geo.centro,
                          reg.auditoria.estado_global, total_validos, reg⟩],
                        .persistido reg⟩
    else ⟨[], [], [], .sin_id⟩

/-- The Navigator's per-station pre-filter (cne_scraper.py:489-495):
`True` means a work item is enqueued for this station. The filter skips
only when the id is truthy and already persisted; the `int` conversion
raises out of `main` when the truthy id is unparseable. -/
def navigator_enqueue_mesa (db : List Int) (mesa : Val) : Except Unit Bool := do
  let id_jrv ← id_de_mesa mesa
  if truthy id_jrv then do
    let n ← pyIntE id_jrv
    pure (!db.contains n)
  else
    pure true

/-- The static zone code→label table `MAPA_ZONAS_DEFAULT`
(cne_scraper.py:467). -/
def MAPA_ZONAS_DEFAULT : List (String × String) := [("01", "URBANA"), ("02", "RURAL")]

/-- Python `MAPA_ZONAS_DEFAULT.get(id_zona, "Desconocida")`: string codes
are looked up, other hashable values miss and yield the default, an
unhashable key (list/dict) raises. -/
def mapaZonasGet (clave : Val) : Except Unit String :=
  match clave with
  | .vStr s => .ok ((MAPA_ZONAS_DEFAULT.lookup s).getD "Desconocida")
  | .vInt _ => .ok "Desconocida"
  | .vNone => .ok "Desconocida"
  | _ => .error ()

/-- The zone id expression `zona.get("cod_zona") or zona.get("id_zona")`
(cne_scraper.py:470). -/
def id_zona_de (zona : Val) : Except Unit Val := do
  let a ← pyGetE zona "cod_zona" .vNone
  let b ← pyGetE zona "id_zona" .vNone
  pure (pyOr a b)

/-- The zone name expression
`zona.get("zona") or MAPA_ZONAS_DEFAULT.get(id_zona, "Desconocida")`
(cne_scraper.py:471-473), with the `or` short-circuit made explicit. -/
def nom_zona_de (zona : Val) : Except Unit Val := do
  let z ← pyGetE zona "zona" .vNone
  if truthy z then
    pure z
  else do
    let idz ← id_zona_de zona
    let s ← mapaZonasGet idz
    pure (.vStr s)

/-- The static department list `deptos_list` (cne_scraper.py:426-446) as
(id, name) pairs. -/
def deptos_list : List (String × String) :=
  [("01", "Atlantida"), ("02", "Colon"), ("03", "Comayagua"), ("04", "Copan"),
   ("05", "Cortes"), ("06", "Choluteca"), ("07", "El_Paraiso"),
   ("08", "Francisco_Morazan"), ("09", "Gracias_a_Dios"), ("10", "Intibuca"),
   ("11", "Islas_de_la_Bahia"), ("12", "La_Paz"), ("13", "Lempira"),
   ("14", "Ocotepeque"), ("15", "Olancho"), ("16", "Santa_Barbara"),
   ("17", "Valle"), ("18", "Yoro"), ("20", "Voto_Exterior")]

/-- The municipality-discovery url `url_munis` (cne_scraper.py:449). -/
def url_municipios (depto_id : String) : String :=
  BASE_API ++ "/actas-documentos/" ++ NIVEL ++ "/" ++ depto_id ++ "/municipios"

/-- Skeleton of the department loop of `main` (cne_scraper.py:448-453):
each department of the static list is processed with its own
municipality-discovery result, one after the other, with no early exit,
so a failed branch (whose discovery degraded to the empty list) cannot
remove a sibling department from the traversal. -/
def recorrer_departamentos (nav : String → Val) : List (String × Val) :=
  deptos_list.map (fun d => (d.2, nav (url_municipios d.1)))

/-- The backoff sleeps of `fetch_navigation_robust` starting after the
navigation attempt with 0-based index `k`, for `r` failed attempts. -/
def esperasNav : Nat → Nat → List Nat
  | _, 0 => []
  | k, r + 1 => (2 * (k + 1)) :: esperasNav (k + 1) r

/-- The statistics block of a persisted outcome, when there is one. -/
def estadisticas_de : Resultado → Option Estadisticas
  | .persistido reg => some reg.estadisticas
  | _ => none

/-- Concrete fixture: a station payload carrying only the id 1. -/
def mesa_t1 : Val := .vDict [("numero", .vInt 1)]

/-- Concrete fixture: a station payload carrying only the id 2. -/
def mesa_t2 : Val := .vDict [("numero", .vInt 2)]

/-- Concrete fixture: a station payload with id 3 and a tokenized
document url. -/
def mesa_t3 : Val :=
  .vDict [("numero", .vInt 3), ("nombre_archivo", .vStr "https://x/doc.pdf?tok=1")]

/-- Concrete fixture: geographic ids of a work item. -/
def geo_ids_t : GeoIds := ⟨.vStr "08", .vStr "01", .vStr "01", .vStr "001"⟩

/-- Concrete fixture: geographic names of a work item. -/
def geo_noms_t : GeoNoms :=
  ⟨.vStr "Francisco_Morazan", .vStr "Distrito_Central", .vStr "URBANA", .vStr "Centro_1"⟩

/-- Concrete fixture: every data fetch degraded to `None` (absent). -/
def oraculo_vacio : Solicitud → Option Val := fun _ => none

/-- Concrete fixture: an empty filesystem. -/
def fs_vacio : String → Option Nat := fun _ => none

/-- Concrete fixture: every asset request fails with a transport error. -/
def http_nulo : String → Option Nat := fun _ => none

/-- The all-zero record the handler persists for station `mesa_t1` when
every upstream call is absent. -/
def registro_t1 : Registro :=
  { id_jrv := 1
    timestamps := ⟨"t", .vNone⟩
    geografia := ⟨.vStr "08", .vStr "Francisco_Morazan", .vStr "01", .vStr "Distrito_Central",
      .vStr "01", .vStr "URBANA", .vStr "001", .vStr "Centro_1"⟩
    auditoria := ⟨"No Publicada", .vInt 0, .vInt 0, .vInt 0, .vInt 0, .vInt 0⟩
    estadisticas := ⟨.vInt 0, .vInt 0, .vInt 0, 0, 0, 0, 0⟩
    detalle_resultados := []
    documentos := ⟨false, none, .vNone, .vNone⟩ }

/-- The record the handler persists for station `mesa_t2` when every
upstream call is absent. -/
def registro_t2 : Registro :=
  { id_jrv := 2
    timestamps := ⟨"t", .vNone⟩
    geografia := ⟨.vStr "08", .vStr "Francisco_Morazan", .vStr "01", .vStr "Distrito_Central",
      .vStr "01", .vStr "URBANA", .vStr "001", .vStr "Centro_1"⟩
    auditoria := ⟨"No Publicada", .vInt 0, .vInt 0, .vInt 0, .vInt 0, .vInt 0⟩
    estadisticas := ⟨.vInt 0, .vInt 0, .vInt 0, 0, 0, 0, 0⟩
    detalle_resultados := []
    documentos := ⟨false, none, .vNone, .vNone⟩ }

/-- The record the handler persists for station `mesa_t3` (tokenized
document url, download failing) when every data call is absent. -/
def registro_t3 : Registro :=
  { id_jrv := 3
    timestamps := ⟨"t", .vNone⟩
    geografia := ⟨.vStr "08", .vStr "Francisco_Morazan", .vStr "01", .vStr "Distrito_Central",
      .vStr "01", .vStr "URBANA", .vStr "001", .vStr "Centro_1"⟩
    auditoria := ⟨"No Publicada", .vInt 0, .vInt 0, .vInt 0, .vInt 0, .vInt 0⟩
    estadisticas := ⟨.vInt 0, .vInt 0, .vInt 0, 0, 0, 0, 0⟩
    detalle_resultados := []
    documentos := ⟨false, none, .vStr "https://x/doc.pdf", .vStr "https://x/doc.pdf?tok=1"⟩ }

/-- A special-votes line item with an optional integer `votos` field, used
to state the list shape of `extraer_votos` generically. -/
def item_votos : Option Int → Val
  | some n => .vDict [("votos", .vInt n)]
  | none => .vDict []

/-- Sum of a list of optional vote counts, a missing count contributing 0. -/
def suma_votos_opc (l : List (Option Int)) : Int :=
  l.foldl (fun a o => a + o.getD 0) 0

/-- Folding `sumarVotosItem` over well-formed line items accumulates the
`votos` fields, a missing field contributing 0. -/
theorem foldlM_sumarVotosItem (l : List (Option Int)) (acc : Int) :
    (l.map item_votos).foldlM sumarVotosItem acc =
      .ok (l.foldl (fun a o => a + o.getD 0) acc) := by
  induction l generalizing acc with
  | nil => rfl
  | cons o l ih =>
    cases o with
    | some n => exact ih (acc + n)
    | none => exact ih (acc + 0)

/-- C2: `extraer_votos` handles every response shape as claimed: `None`
yields 0; a bare integer yields itself; a list of line items yields the
sum of their `votos` fields with a missing field contributing 0; a dict
with a `resultados` key yields the sum over that collection; a dict with
a direct `votos` key yields that value; a leftover shape (a string, or a
dict with neither key) yields 0 without erroring; and the three concrete
shapes `7`, `\x7b"votos": 7\x7d` and
`\x7b"resultados": [\x7b"votos": 3\x7d, \x7b"votos": 4\x7d]\x7d` all
extract 7. -/
theorem extraer_votos_formas :
    extraer_votos .vNone = .ok 0
  ∧ (∀ n : Int, extraer_votos (.vInt n) = .ok n)
  ∧ (∀ l : List (Option Int),
      extraer_votos (.vList (l.map item_votos)) = .ok (suma_votos_opc l))
  ∧ (∀ l : List (Option Int),
      extraer_votos (.vDict [("resultados", .vList (l.map item_votos))]) =
        .ok (suma_votos_opc l))
  ∧ (∀ n : Int, extraer_votos (.vDict [("votos", .vInt n)]) = .ok n)
  ∧ (∀ s : String, extraer_votos (.vStr s) = .ok 0)
  ∧ (∀ kvs : List (String × Val), buscar kvs "resultados" = none →
      buscar kvs "votos" = none → extraer_votos (.vDict kvs) = .ok 0)
  ∧ extraer_votos (.vInt 7) = .ok 7
  ∧ extraer_votos (.vDict [("votos", .vInt 7)]) = .ok 7
  ∧ extraer_votos (.vDict [("resultados",
      .vList [.vDict [("votos", .vInt 3)], .vDict [("votos", .vInt 4)]])]) = .ok 7 := by
  refine ⟨rfl, fun n => rfl, fun l => foldlM_sumarVotosItem l 0,
    fun l => foldlM_sumarVotosItem l 0, fun n => ?_, fun s => rfl, fun kvs h1 h2 => ?_,
    rfl, rfl, rfl⟩
  · show Except.ok (0 + n) = Except.ok n
    rw [Int.zero_add]
  · show (match buscar kvs "resultados" with
      | some rs => do
        let items ← pyIter rs
        items.foldlM sumarVotosItem 0
      | none =>
        match buscar kvs "votos" with
        | some (.vInt n) => .ok (0 + n)
        | some _ => .error ()
        | none => .ok 0) = Except.ok 0
    rw [h1, h2]

/-- C2 witness: the theorem applied at the concrete line-item list
`[\x7b"votos": 3\x7d, \x7b\x7d, \x7b"votos": 4\x7d]` and at a dict with
neither special key. -/
theorem extraer_votos_formas_testigo :
    extraer_votos (.vList ((([some 3, none, some 4] : List (Option Int))).map item_votos)) =
      .ok (suma_votos_opc [some 3, none, some 4])
  ∧ extraer_votos (.vDict [("otra", .vInt 5)]) = .ok 0 :=
  ⟨extraer_votos_formas.2.2.1 [some 3, none, some 4],
   extraer_votos_formas.2.2.2.2.2.2.1 [("otra", .vInt 5)] rfl rfl⟩

/-- C4 counterexample: under POST, an HTTP 404 is not an immediate
`absent`; with every attempt answering 404, `fetch` consumes all three
attempts of its default bound instead of returning after the first. -/
theorem fetch_post_404_no_inmediato :
    fetch .post (fun _ => .estado 404 .vNone) FETCH_REINTENTOS = ⟨none, 3, []⟩
  ∧ (fetch .post (fun _ => .estado 404 .vNone) FETCH_REINTENTOS).intentos ≠ 1 :=
  ⟨rfl, by decide⟩

/-- C4 (amended): response classification of `fetch`. An HTTP 200 returns
the parsed payload at once for either method; for GET, 404 and 204 return
`absent` at once; for POST only 204 returns `absent` at once, while a 404
is logged and falls through to the next attempt like any other status; a
transport exception is followed by a backoff of `1 * attempt` seconds
(1-based attempt index) and falls through; and when every attempt falls
through, the bound (default 3) is exhausted and the function returns
`absent` rather than raising. -/
theorem fetch_clasificacion :
    (∀ (m : Metodo) (o : Nat → Intento) (r : Nat) (p : Val),
        o 0 = .estado 200 p → fetch m o (r + 1) = ⟨some p, 1, []⟩)
  ∧ (∀ (o : Nat → Intento) (r : Nat) (p : Val) (c : Nat),
        o 0 = .estado c p → c = 404 ∨ c = 204 → fetch .get o (r + 1) = ⟨none, 1, []⟩)
  ∧ (∀ (o : Nat → Intento) (r : Nat) (p : Val),
        o 0 = .estado 204 p → fetch .post o (r + 1) = ⟨none, 1, []⟩)
  ∧ (∀ (o : Nat → Intento) (r : Nat) (p : Val) (c : Nat),
        o 0 = .estado c p → c ≠ 200 → c ≠ 204 →
        fetch .post o (r + 1) =
          ⟨(fetch_bucle .post o 1 r).resultado, (fetch_bucle .post o 1 r).intentos + 1,
            (fetch_bucle .post o 1 r).esperas⟩)
  ∧ (∀ (m : Metodo) (o : Nat → Intento) (i r : Nat),
        o i = .excepcion →
        fetch_bucle m o i (r + 1) =
          ⟨(fetch_bucle m o (i + 1) r).resultado, (fetch_bucle m o (i + 1) r).intentos + 1,
            (1 * (i + 1)) :: (fetch_bucle m o (i + 1) r).esperas⟩)
  ∧ (∀ (m : Metodo) (o : Nat → Intento) (r : Nat),
        (∀ i, reintenta m (o i) = true) →
        (fetch m o r).resultado = none ∧ (fetch m o r).intentos = r) := by
  have agotado : ∀ (m : Metodo) (o : Nat → Intento), (∀ i, reintenta m (o i) = true) →
      ∀ (r i : Nat), (fetch_bucle m o i r).resultado = none ∧
        (fetch_bucle m o i r).intentos = r := by
    intro m o h r
    induction r with
    | zero => intro i; exact ⟨rfl, rfl⟩
    | succ r ih =>
      intro i
      have hi := h i
      cases ho : o i with
      | excepcion =>
        simp only [fetch_bucle, ho]
        exact ⟨(ih (i + 1)).1, by rw [(ih (i + 1)).2]⟩
      | estado c p =>
        rw [ho] at hi
        cases m with
        | get =>
          simp only [reintenta, Bool.not_eq_true', Bool.or_eq_false_iff, beq_eq_false_iff_ne,
            ne_eq] at hi
          have hor : ¬(c = 404 ∨ c = 204) := fun hc => hc.elim hi.1.2 hi.2
          simp only [fetch_bucle, ho, if_neg hi.1.1, if_neg hor]
          exact ⟨(ih (i + 1)).1, by rw [(ih (i + 1)).2]⟩
        | post =>
          simp only [reintenta, Bool.not_eq_true', Bool.or_eq_false_iff, beq_eq_false_iff_ne,
            ne_eq] at hi
          simp only [fetch_bucle, ho, if_neg hi.1, if_neg hi.2]
          exact ⟨(ih (i + 1)).1, by rw [(ih (i + 1)).2]⟩
  refine ⟨fun m o r p h => ?_, fun o r p c h hc => ?_, fun o r p h => ?_,
    fun o r p c h h200 h204 => ?_, fun m o i r h => ?_,
    fun m o r h => agotado m o h r 0⟩
  · cases m <;> simp [fetch, fetch_bucle, h]
  · rcases hc with rfl | rfl <;> simp [fetch, fetch_bucle, h]
  · simp [fetch, fetch_bucle, h]
  · simp [fetch, fetch_bucle, h, h200, h204]
  · simp [fetch_bucle, h]

/-- C4 witness: the amended classification applied at concrete attempt
streams — a first-attempt 200, a GET 404, a POST 204, a POST 404 that
retries, an exception with its 1-second first backoff, and a run of three
exceptions exhausting the default bound. -/
theorem fetch_clasificacion_testigo :
    fetch .get (fun _ => .estado 200 (.vInt 9)) 3 = ⟨some (.vInt 9), 1, []⟩
  ∧ fetch .get (fun _ => .estado 404 .vNone) 3 = ⟨none, 1, []⟩
  ∧ fetch .post (fun _ => .estado 204 .vNone) 3 = ⟨none, 1, []⟩
  ∧ fetch .post (fun _ => .estado 404 .vNone) 3 =
      ⟨(fetch_bucle .post (fun _ => .estado 404 .vNone) 1 2).resultado,
        (fetch_bucle .post (fun _ => .estado 404 .vNone) 1 2).intentos + 1,
        (fetch_bucle .post (fun _ => .estado 404 .vNone) 1 2).esperas⟩
  ∧ fetch_bucle .get (fun _ => .excepcion) 0 3 =
      ⟨(fetch_bucle .get (fun _ => .excepcion) 1 2).resultado,
        (fetch_bucle .get (fun _ => .excepcion) 1 2).intentos + 1,
        (1 * (0 + 1)) :: (fetch_bucle .get (fun _ => .excepcion) 1 2).esperas⟩
  ∧ (fetch .get (fun _ => .excepcion) FETCH_REINTENTOS).resultado = none
  ∧ (fetch .get (fun _ => .excepcion) FETCH_REINTENTOS).intentos = FETCH_REINTENTOS :=
  ⟨fetch_clasificacion.1 .get _ 2 (.vInt 9) rfl,
   fetch_clasificacion.2.1 _ 2 .vNone 404 rfl (Or.inl rfl),
   fetch_clasificacion.2.2.1 _ 2 .vNone rfl,
   fetch_clasificacion.2.2.2.1 _ 2 .vNone 404 rfl (by decide) (by decide),
   fetch_clasificacion.2.2.2.2.1 .get _ 0 2 rfl,
   (fetch_clasificacion.2.2.2.2.2 .get (fun _ => .excepcion) FETCH_REINTENTOS
      (fun i => rfl)).1,
   (fetch_clasificacion.2.2.2.2.2 .get (fun _ => .excepcion) FETCH_REINTENTOS
      (fun i => rfl)).2⟩

/-- C6: `descargar_asset` is a no-op success when the target file already
exists with non-zero size — it returns the filename and issues no network
request; and on an HTTP status other than 200, or on a transport
exception, it returns `None` (the function is total, so nothing is raised
past this boundary). -/
theorem descargar_asset_contrato (fsTam http : String → Option Nat) (u : Val)
    (carpeta nombre : String) :
    (∀ k : Nat, fsTam (carpeta ++ "/" ++ nombre) = some k → 0 < k → truthy u = true →
        descargar_asset fsTam http u carpeta nombre = ⟨some nombre, [], false⟩)
  ∧ (∀ (s : String) (c : Nat), u = .vStr s → truthy u = true →
        (fsTam (carpeta ++ "/" ++ nombre)).getD 0 = 0 → http s = some c → c ≠ 200 →
        descargar_asset fsTam http u carpeta nombre = ⟨none, [s], false⟩)
  ∧ (∀ s : String, u = .vStr s → truthy u = true →
        (fsTam (carpeta ++ "/" ++ nombre)).getD 0 = 0 → http s = none →
        descargar_asset fsTam http u carpeta nombre = ⟨none, [s], false⟩) := by
  refine ⟨fun k hk hpos ht => ?_, fun s c hu ht hvacio hh hc => ?_,
    fun s hu ht hvacio hh => ?_⟩
  · simp [descargar_asset, ht, hk, hpos]
  · subst hu
    simp [descargar_asset, ht, hvacio, hh, hc]
  · subst hu
    simp [descargar_asset, ht, hvacio, hh]

/-- C6 witness: the contract applied at a cached file (no request) and at
a 500 status and a transport failure (both `None`, one request). -/
theorem descargar_asset_contrato_testigo :
    descargar_asset (fun _ => some 3) (fun _ => some 200) (.vStr "u") "d" "f.png" =
      ⟨some "f.png", [], false⟩
  ∧ descargar_asset (fun _ => none) (fun _ => some 500) (.vStr "u") "d" "f.png" =
      ⟨none, ["u"], false⟩
  ∧ descargar_asset (fun _ => none) (fun _ => none) (.vStr "u") "d" "f.png" =
      ⟨none, ["u"], false⟩ :=
  ⟨(descargar_asset_contrato (fun _ => some 3) (fun _ => some 200) (.vStr "u") "d" "f.png").1
      3 rfl (by decide) rfl,
   (descargar_asset_contrato (fun _ => none) (fun _ => some 500) (.vStr "u") "d" "f.png").2.1
      "u" 500 rfl rfl rfl rfl (by decide),
   (descargar_asset_contrato (fun _ => none) (fun _ => none) (.vStr "u") "d" "f.png").2.2
      "u" rfl rfl rfl rfl⟩

/-- When every navigation attempt in range yields no data, the loop of
`fetch_navigation_robust` exhausts its bound, sleeping `2 * attempt`
seconds after each failed attempt, and ends in the critical branch
returning the empty list. -/
theorem fetch_navigation_bucle_fallo (o : Nat → Nat → Intento) :
    ∀ (r k : Nat), (∀ a, a < k + r → (fetch .get (o a) 1).resultado = none) →
      fetch_navigation_bucle o k r = ⟨.vList [], r, esperasNav k r, true⟩ := by
  intro r
  induction r with
  | zero => intro k h; rfl
  | succ r ih =>
    intro k h
    have hk := h k (by omega)
    simp only [fetch_navigation_bucle, hk, esperasNav]
    rw [ih (k + 1) (fun a ha => h a (by omega))]

/-- C7: the navigation fetch attempts the discovery call up to 5 times
with backoffs of `2 * attempt` seconds (1-based attempt index); when all
five attempts yield no data, it logs the critical branch failure and
returns the empty collection instead of raising; and the department loop
of `main` processes every department of the static list no matter what
each department's discovery returned, so one branch's failure cannot
remove a sibling from the traversal. -/
theorem fetch_navigation_robust_fallo_aislado :
    (∀ o : Nat → Nat → Intento, (∀ a, a < 5 → (fetch .get (o a) 1).resultado = none) →
        fetch_navigation_robust o = ⟨.vList [], 5, [2, 4, 6, 8, 10], true⟩)
  ∧ (∀ (nav : String → Val) (d : String × String), d ∈ deptos_list →
        (d.2, nav (url_municipios d.1)) ∈ recorrer_departamentos nav) := by
  constructor
  · intro o h
    show fetch_navigation_bucle o 0 5 = _
    rw [fetch_navigation_bucle_fallo o 5 0 (fun a ha => h a (by omega))]
    rfl
  · intro nav d hd
    exact List.mem_map_of_mem (fun d => (d.2, nav (url_municipios d.1))) hd

/-- C7 witness: the theorem applied at an attempt stream that always
raises (every inner fetch degrades to `None`) and at the concrete
department `Francisco_Morazan`. -/
theorem fetch_navigation_robust_fallo_aislado_testigo :
    fetch_navigation_robust (fun _ _ => .excepcion) = ⟨.vList [], 5, [2, 4, 6, 8, 10], true⟩
  ∧ ("Francisco_Morazan", Val.vList []) ∈
      recorrer_departamentos (fun _ => Val.vList []) :=
  ⟨fetch_navigation_robust_fallo_aislado.1 (fun _ _ => .excepcion)
      (fun a _ => by cases a <;> rfl),
   fetch_navigation_robust_fallo_aislado.2 (fun _ => Val.vList [])
      ("08", "Francisco_Morazan") (by decide)⟩

/-- C8: when a zone node's payload lacks a truthy human-readable label,
the zone name is derived from the static `MAPA_ZONAS_DEFAULT` table via
the zone code, and codes outside the table fall back to the fixed label
"Desconocida" (Unknown). -/
theorem nom_zona_fallback (zona z : Val) (hz : pyGetE zona "zona" .vNone = .ok z)
    (ht : truthy z = false) :
    (∀ s : String, id_zona_de zona = .ok (.vStr s) →
        nom_zona_de zona = .ok (.vStr ((MAPA_ZONAS_DEFAULT.lookup s).getD "Desconocida")))
  ∧ (id_zona_de zona = .ok .vNone → nom_zona_de zona = .ok (.vStr "Desconocida"))
  ∧ (∀ s : String, s ≠ "01" → s ≠ "02" →
        (MAPA_ZONAS_DEFAULT.lookup s).getD "Desconocida" = "Desconocida") := by
  refine ⟨fun s hid => ?_, fun hid => ?_, fun s h1 h2 => ?_⟩
  · simp [nom_zona_de, hz, ht, hid, mapaZonasGet, Bind.bind, Except.bind, pure,
      Except.pure, Functor.map, Except.map]
  · simp [nom_zona_de, hz, ht, hid, mapaZonasGet, Bind.bind, Except.bind, pure,
      Except.pure, Functor.map, Except.map]
  · have e1 : (s == "01") = false := beq_eq_false_iff_ne.mpr h1
    have e2 : (s == "02") = false := beq_eq_false_iff_ne.mpr h2
    simp [MAPA_ZONAS_DEFAULT, List.lookup, e1, e2]

/-- C8 witness: a zone node carrying only the unmapped code "07" and one
carrying the mapped code "02" with an empty label. -/
theorem nom_zona_fallback_testigo :
    nom_zona_de (.vDict [("cod_zona", .vStr "07")]) = .ok (.vStr "Desconocida")
  ∧ nom_zona_de (.vDict [("zona", .vStr ""), ("id_zona", .vStr "02")]) =
      .ok (.vStr "RURAL") := by
  constructor
  · have h := (nom_zona_fallback (.vDict [("cod_zona", .vStr "07")]) .vNone rfl rfl).1
      "07" rfl
    simpa using h
  · have h := (nom_zona_fallback (.vDict [("zona", .vStr ""), ("id_zona", .vStr "02")])
      (.vStr "") rfl rfl).1 "02" rfl
    simpa using h

/-- C3: for a station whose id already exists in the persistence store,
both pre-filters skip it — the Navigator's per-station filter does not
enqueue a work item, and `procesar_mesa_task` returns having issued no
upstream data call, no asset request and no database write. Hence a
second run over an unchanged dataset performs zero redundant upstream
data calls for already-persisted stations. -/
theorem prefiltros_omiten_existentes (db : List Int) (oraculo : Solicitud → Option Val)
    (fsTam http : String → Option Nat) (ahora : String) (mesa : Val)
    (ids_geo : GeoIds) (noms_geo : GeoNoms) (idv : Val) (n : Int)
    (hid : id_de_mesa mesa = .ok idv) (ht : truthy idv = true)
    (hnav : pyIntE idv = .ok n) (hwrk : pyParseInt (pyStr idv) = some n)
    (hdb : db.contains n = true) :
    navigator_enqueue_mesa db mesa = .ok false ∧
    procesar_mesa_task db oraculo fsTam http ahora mesa ids_geo noms_geo =
      ⟨[], [], [], .ya_existe⟩ := by
  have hmem : n ∈ db := by simpa using hdb
  constructor
  · simp [navigator_enqueue_mesa, hid, ht, hnav, hdb, hmem, Bind.bind, Except.bind, pure,
      Except.pure]
  · simp [procesar_mesa_task, hid, ht, hwrk, hdb, hmem]

/-- C3 witness: station 5 with the store already holding id 5 — not
enqueued and skipped by the worker with empty traces. -/
theorem prefiltros_omiten_existentes_testigo :
    navigator_enqueue_mesa [5] (.vDict [("numero", .vInt 5)]) = .ok false ∧
    procesar_mesa_task [5] (fun _ => none) (fun _ => none) (fun _ => none) "t"
      (.vDict [("numero", .vInt 5)]) ⟨.vStr "08", .vStr "01", .vStr "01", .vStr "001"⟩
      ⟨.vStr "Francisco_Morazan", .vStr "D", .vStr "URBANA", .vStr "C"⟩ =
      ⟨[], [], [], .ya_existe⟩ :=
  prefiltros_omiten_existentes [5] (fun _ => none) (fun _ => none) (fun _ => none) "t"
    (.vDict [("numero", .vInt 5)]) ⟨.vStr "08", .vStr "01", .vStr "01", .vStr "001"⟩
    ⟨.vStr "Francisco_Morazan", .vStr "D", .vStr "URBANA", .vStr "C"⟩
    (.vInt 5) 5 rfl rfl rfl (by decide) rfl

/-- C10: for a work item whose station payload yields a falsy id (neither
`numero` nor `jrv` truthy), the worker returns immediately with no HTTP
request and no database write, while the Navigator's own filter does not
trip (its skip applies only to truthy ids), so such an item is still
enqueued and the worker is the sole guard. -/
theorem mesa_sin_id_solo_worker (db : List Int) (oraculo : Solicitud → Option Val)
    (fsTam http : String → Option Nat) (ahora : String) (mesa : Val)
    (ids_geo : GeoIds) (noms_geo : GeoNoms) (idv : Val)
    (hid : id_de_mesa mesa = .ok idv) (ht : truthy idv = false) :
    procesar_mesa_task db oraculo fsTam http ahora mesa ids_geo noms_geo =
      ⟨[], [], [], .sin_id⟩ ∧
    navigator_enqueue_mesa db mesa = .ok true := by
  constructor
  · simp [procesar_mesa_task, hid, ht]
  · simp [navigator_enqueue_mesa, hid, ht, Bind.bind, Except.bind, pure, Except.pure]

/-- C10 witness: a station payload with no id fields at all. -/
theorem mesa_sin_id_solo_worker_testigo :
    procesar_mesa_task [] (fun _ => none) (fun _ => none) (fun _ => none) "t"
      (.vDict []) ⟨.vStr "08", .vStr "01", .vStr "01", .vStr "001"⟩
      ⟨.vStr "Francisco_Morazan", .vStr "D", .vStr "URBANA", .vStr "C"⟩ =
      ⟨[], [], [], .sin_id⟩ ∧
    navigator_enqueue_mesa [] (.vDict []) = .ok true :=
  mesa_sin_id_solo_worker [] (fun _ => none) (fun _ => none) (fun _ => none) "t"
    (.vDict []) ⟨.vStr "08", .vStr "01", .vStr "01", .vStr "001"⟩
    ⟨.vStr "Francisco_Morazan", .vStr "D", .vStr "URBANA", .vStr "C"⟩
    .vNone rfl rfl

/-- Inversion of a successful assembly: the computed fields of the record
are exactly the arguments supplied by the handler, and the document url
fields come from `url_pdf`. -/
theorem ensamblar_registro_inv (ahora : String) (ids_geo : GeoIds) (noms_geo : GeoNoms)
    (n : Int) (data_val data_suf data_res : Val) (votos_blancos votos_nulos : Int)
    (lista : List Candidato) (total_validos total_urna : Int) (pdf_local : Option String)
    (url_pdf : Val) (reg : Registro)
    (h : ensamblar_registro ahora ids_geo noms_geo n data_val data_suf data_res
      votos_blancos votos_nulos lista total_validos total_urna pdf_local url_pdf =
      .ok reg) :
    reg.estadisticas.votos_validos_calc = total_validos ∧
    reg.estadisticas.votos_blancos = votos_blancos ∧
    reg.estadisticas.votos_nulos = votos_nulos ∧
    reg.estadisticas.total_votos_calculados = total_urna ∧
    reg.detalle_resultados = lista ∧
    reg.documentos.url_tokenizada = url_pdf ∧
    url_origen_de url_pdf = .ok reg.documentos.url_origen ∧
    reg.id_jrv = n := by
  unfold ensamblar_registro at h
  split at h
  · injection h with h
    subst h
    rename_i heq
    exact ⟨rfl, rfl, rfl, rfl, rfl, rfl, heq, rfl⟩
  · exact absurd h (by simp)

/-- Inversion of a persisted outcome of the per-station handler: the
record was assembled by `ensamblar_registro` from some fetched data, with
the valid-vote total produced by `sumar_votos_candidatos` over the
candidate list, the grand total formed as valid + blank + null, the
document url taken from the station payload, and exactly one row written
whose stored total is that same valid-vote total. -/
theorem procesar_persistido_inv (db : List Int) (oraculo : Solicitud → Option Val)
    (fsTam http : String → Option Nat) (ahora : String) (mesa : Val)
    (ids_geo : GeoIds) (noms_geo : GeoNoms) (s : ProcSalida) (reg : Registro)
    (h : procesar_mesa_task db oraculo fsTam http ahora mesa ids_geo noms_geo = s)
    (hres : s.resultado = .persistido reg) :
    ∃ (n : Int) (data_val data_suf data_res : Val) (votos_blancos votos_nulos : Int)
      (cands : List CandProc) (total_validos : Int) (pdf_local : Option String)
      (url_pdf : Val),
      pyGetE mesa "nombre_archivo" .vNone = .ok url_pdf ∧
      sumar_votos_candidatos (cands.map CandProc.cand) = .ok total_validos ∧
      ensamblar_registro ahora ids_geo noms_geo n data_val data_suf data_res
        votos_blancos votos_nulos (cands.map CandProc.cand) total_validos
        (total_validos + votos_blancos + votos_nulos) pdf_local url_pdf = .ok reg ∧
      s.filas = [⟨n, noms_geo.depto, noms_geo.muni, noms_geo.centro,
        reg.auditoria.estado_global, total_validos, reg⟩] := by
  simp only [procesar_mesa_task] at h
  repeat' split at h
  all_goals subst h
  all_goals try (exfalso; simp at hres; done)
  all_goals
    injection hres with hregs
  all_goals subst hregs
  all_goals
    exact ⟨_, _, _, _, _, _, _, _, _, _, by assumption, by assumption, by assumption, rfl⟩

/-- C1: every record the per-station handler persists satisfies the total
invariant — the stored `total_votos_calculados` equals the stored
`votos_validos_calc` plus the blank-vote tally plus the null-vote tally,
the stored `votos_validos_calc` is exactly the sum of the candidates'
vote counts, and the `votos_validos_calculados` database column stores
that same computed sum; both totals are computed by the handler, never
taken from a fetched field. -/
theorem invariante_totales (db : List Int) (oraculo : Solicitud → Option Val)
    (fsTam http : String → Option Nat) (ahora : String) (mesa : Val)
    (ids_geo : GeoIds) (noms_geo : GeoNoms) (reg : Registro)
    (hres : (procesar_mesa_task db oraculo fsTam http ahora mesa ids_geo
      noms_geo).resultado = .persistido reg) :
    reg.estadisticas.total_votos_calculados =
      reg.estadisticas.votos_validos_calc + reg.estadisticas.votos_blancos +
        reg.estadisticas.votos_nulos
  ∧ sumar_votos_candidatos reg.detalle_resultados = .ok reg.estadisticas.votos_validos_calc
  ∧ (procesar_mesa_task db oraculo fsTam http ahora mesa ids_geo noms_geo).filas.map
      FilaBD.votos_validos_calculados = [reg.estadisticas.votos_validos_calc] := by
  obtain ⟨n, dv, ds, dr, vb, vn, cands, tv, pl, up, hpdf, hsum, hens, hfilas⟩ :=
    procesar_persistido_inv db oraculo fsTam http ahora mesa ids_geo noms_geo _ reg rfl hres
  obtain ⟨e1, e2, e3, e4, e5, e6, e7, e8⟩ :=
    ensamblar_registro_inv ahora ids_geo noms_geo n dv ds dr vb vn
      (cands.map CandProc.cand) tv (tv + vb + vn) pl up reg hens
  refine ⟨?_, ?_, ?_⟩
  · rw [e4, e1, e2, e3]
  · rw [e5, e1]
    exact hsum
  · rw [hfilas, e1]
    rfl

/-- C1 witness: the invariant applied to the concrete all-absent run that
persists `registro_t2` for station 2. -/
theorem invariante_totales_testigo :
    registro_t2.estadisticas.total_votos_calculados =
      registro_t2.estadisticas.votos_validos_calc + registro_t2.estadisticas.votos_blancos +
        registro_t2.estadisticas.votos_nulos
  ∧ sumar_votos_candidatos registro_t2.detalle_resultados =
      .ok registro_t2.estadisticas.votos_validos_calc
  ∧ (procesar_mesa_task [] oraculo_vacio fs_vacio http_nulo "t" mesa_t2 geo_ids_t
      geo_noms_t).filas.map FilaBD.votos_validos_calculados =
      [registro_t2.estadisticas.votos_validos_calc] :=
  invariante_totales [] oraculo_vacio fs_vacio http_nulo "t" mesa_t2 geo_ids_t geo_noms_t
    registro_t2 rfl

/-- C5: a station whose candidate-results call returned no data and whose
blank-vote and null-vote calls returned absent still yields a persisted
record with valid = blank = null = total = 0 — the all-absent run for
station 1 persists exactly `registro_t1` and writes its one row. -/
theorem registro_cero_persistido :
    (procesar_mesa_task [] oraculo_vacio fs_vacio http_nulo "t" mesa_t1 geo_ids_t
        geo_noms_t).resultado = .persistido registro_t1
  ∧ estadisticas_de (procesar_mesa_task [] oraculo_vacio fs_vacio http_nulo "t" mesa_t1
      geo_ids_t geo_noms_t).resultado = some ⟨.vInt 0, .vInt 0, .vInt 0, 0, 0, 0, 0⟩
  ∧ (procesar_mesa_task [] oraculo_vacio fs_vacio http_nulo "t" mesa_t1 geo_ids_t
      geo_noms_t).filas.map FilaBD.id_jrv = [1] :=
  ⟨rfl, rfl, rfl⟩

/-- C9: in every persisted record, when the station payload carries a
truthy string document url the stored `url_origen` is that url truncated
at the first `?` and `url_tokenizada` retains the original, and when the
payload carries no document url both fields are `None`. -/
theorem url_origen_sin_token (db : List Int) (oraculo : Solicitud → Option Val)
    (fsTam http : String → Option Nat) (ahora : String) (mesa : Val)
    (ids_geo : GeoIds) (noms_geo : GeoNoms) (reg : Registro)
    (hres : (procesar_mesa_task db oraculo fsTam http ahora mesa ids_geo
      noms_geo).resultado = .persistido reg) :
    (∀ u : String, pyGetE mesa "nombre_archivo" .vNone = .ok (.vStr u) →
        truthy (.vStr u) = true →
        reg.documentos.url_origen = .vStr (antesDeInterrogante u) ∧
        reg.documentos.url_tokenizada = .vStr u)
  ∧ (pyGetE mesa "nombre_archivo" .vNone = .ok .vNone →
        reg.documentos.url_origen = .vNone ∧ reg.documentos.url_tokenizada = .vNone) := by
  obtain ⟨n, dv, ds, dr, vb, vn, cands, tv, pl, up, hpdf, hsum, hens, hfilas⟩ :=
    procesar_persistido_inv db oraculo fsTam http ahora mesa ids_geo noms_geo _ reg rfl hres
  obtain ⟨e1, e2, e3, e4, e5, e6, e7, e8⟩ :=
    ensamblar_registro_inv ahora ids_geo noms_geo n dv ds dr vb vn
      (cands.map CandProc.cand) tv (tv + vb + vn) pl up reg hens
  constructor
  · intro u hu htr
    have hup : up = .vStr u := by
      have h' := hpdf.symm.trans hu
      injection h'
    subst hup
    have horig : url_origen_de (.vStr u) = .ok (.vStr (antesDeInterrogante u)) := by
      simp [url_origen_de, htr]
    have h2 := horig.symm.trans e7
    injection h2 with h2
    exact ⟨h2.symm, e6⟩
  · intro hu
    have hup : up = .vNone := by
      have h' := hpdf.symm.trans hu
      injection h'
    subst hup
    have horig : url_origen_de .vNone = .ok .vNone := rfl
    have h2 := horig.symm.trans e7
    injection h2 with h2
    exact ⟨h2.symm, e6⟩

/-- C9 witness: the theorem applied to the concrete run that persists
`registro_t3` for station 3, whose payload url carries a query token. -/
theorem url_origen_sin_token_testigo :
    registro_t3.documentos.url_origen =
      .vStr (antesDeInterrogante "https://x/doc.pdf?tok=1")
  ∧ registro_t3.documentos.url_tokenizada = .vStr "https://x/doc.pdf?tok=1" :=
  (url_origen_sin_token [] oraculo_vacio fs_vacio http_nulo "t" mesa_t3 geo_ids_t
    geo_noms_t registro_t3 rfl).1 "https://x/doc.pdf?tok=1" rfl rfl

end CNE
